import Mathlib

/-!
Shallow embedding of the Kudu cluster checker (`src/kudu/tools/ksck.cc`)
and proofs about its verification and classification logic.

The embedding models the data structures and the control flow of the
source file.  External collaborators declared in headers that are not part
of the source under scrutiny (`ksck.h`, `gutil`, `quorum_util`) are
modelled from the specification where noted.  Nondeterminism coming from
concurrency (arrival order of checksum results, iteration order of hash
maps) is made explicit as parameters of the corresponding functions.
-/

namespace Ksck

/-- The status kinds returned by the checker, with the payloads the
specification talks about (counts for `corruption`/`aborted`/`timedOut`,
messages for the others). Mirrors the `Status` factory calls in the source. -/
inductive KStatus
  | ok
  | notFound (msg : String)
  | networkError (msg : String)
  | serviceUnavailable (msg : String)
  | corruption (count : Nat)
  | timedOut (received expected : Nat)
  | aborted (numErrors : Nat)
  deriving Repr, DecidableEq

/-- Tablet replica states (`tablet::TabletStatePB`). Only the constructors
the checker distinguishes matter: `RUNNING`, `UNKNOWN`, and "anything else". -/
inductive TabletStatePB
  | UNKNOWN
  | BOOTSTRAPPING
  | RUNNING
  | FAILED
  | QUIESCING
  | SHUTDOWN
  deriving Repr, DecidableEq

/-- Name of a tablet state, mirroring `tablet::TabletStatePB_Name`. -/
def TabletStatePB.Name : TabletStatePB → String
  | .UNKNOWN => "UNKNOWN"
  | .BOOTSTRAPPING => "BOOTSTRAPPING"
  | .RUNNING => "RUNNING"
  | .FAILED => "FAILED"
  | .QUIESCING => "QUIESCING"
  | .SHUTDOWN => "SHUTDOWN"

/-- Per-tablet status entry stored in a tablet server's status map
(`tablet_status_map_` values): state, last status string, data state. -/
structure TabletStatusPB where
  state : TabletStatePB
  last_status : String
  tablet_data_state : String
  deriving Repr, DecidableEq

/-- Fetch status of a tablet server. Modelled from the spec: the fetch
status is one of `UNFETCHED`, `FETCHED`, `UNREACHABLE` (the enum itself is
declared in `ksck.h`, which is not part of the source under scrutiny). -/
inductive FetchState
  | UNFETCHED
  | FETCHED
  | UNREACHABLE
  deriving Repr, DecidableEq

/-- Association-list lookup, modelling `std::unordered_map` lookups
(`ContainsKey` / `FindOrDie` / `.at`): the map is keyed by strings. -/
def assocFind : List (String × α) → String → Option α
  | [], _ => none
  | p :: m, k => if p.1 = k then some p.2 else assocFind m k

/-- A tablet server as seen by the checker (`KsckTabletServer`):
uuid, address, fetch state, per-tablet status map, reported timestamp. -/
structure KsckTabletServer where
  uuid : String
  address : String
  state : FetchState
  tablet_status_map : List (String × TabletStatusPB)
  current_timestamp : Nat
  deriving Repr, DecidableEq

/-- Modelled from the spec: `is_healthy ⇔ state == FETCHED` (declared in
`ksck.h`, not in the source under scrutiny). -/
def KsckTabletServer.is_healthy (ts : KsckTabletServer) : Bool :=
  ts.state = FetchState.FETCHED

/-- Modelled from the spec: `ToString` of a tablet server renders its uuid
and address (`ksck.h`; the exact format is immaterial to the claims). -/
def KsckTabletServer.ToString (ts : KsckTabletServer) : String :=
  ts.uuid ++ " (" ++ ts.address ++ ")"

/-- `KsckTabletServer::ReplicaState` (source lines 115-121): `CHECK_EQ` on
the fetched state, then a lookup defaulting to `UNKNOWN`.  The `CHECK`
crash is modelled as `none`. -/
def KsckTabletServer.ReplicaState (ts : KsckTabletServer) (tablet_id : String) :
    Option TabletStatePB :=
  if ts.state = FetchState.FETCHED then
    some (match assocFind ts.tablet_status_map tablet_id with
          | none => TabletStatePB.UNKNOWN
          | some pb => pb.state)
  else
    none

/-- The value `ReplicaState` returns on a fetched tablet server: the state
stored in the status map if the tablet id is present, else `UNKNOWN`. -/
def KsckTabletServer.stateOfFetched (ts : KsckTabletServer) (tablet_id : String) :
    TabletStatePB :=
  match assocFind ts.tablet_status_map tablet_id with
  | none => TabletStatePB.UNKNOWN
  | some pb => pb.state

/-- A tablet replica (`KsckTabletReplica`): hosting server uuid and the
master's role view. -/
structure KsckTabletReplica where
  ts_uuid : String
  is_leader : Bool
  is_follower : Bool
  deriving Repr, DecidableEq

/-- A tablet (`KsckTablet`): id, back-reference to its table's name, and
its replicas. -/
structure KsckTablet where
  id : String
  table_name : String
  replicas : List KsckTabletReplica
  deriving Repr, DecidableEq

/-- A table (`KsckTable`): name, configured replication factor
(`num_replicas`), and its tablets. -/
structure KsckTable where
  name : String
  num_replicas : Nat
  tablets : List KsckTablet
  deriving Repr, DecidableEq

/-- The cluster snapshot (`KsckCluster`): tables and the tablet-server
directory keyed by uuid (`KsckMaster::TSMap`). -/
structure KsckCluster where
  tables : List KsckTable
  tablet_servers : List (String × KsckTabletServer)
  deriving Repr, DecidableEq

/-- Modelled from the spec: glob matching with `*` and `?`, case
sensitive (`MatchPattern` from `gutil/strings/util`, not in the source
under scrutiny).  `globMatch fuel str pat` matches the whole string; the
fuel argument only bounds the recursion depth and is always supplied large
enough (one step consumes at least one character of string or pattern). -/
def globMatch : Nat → List Char → List Char → Bool
  | 0, _, _ => false
  | _ + 1, s, [] => s.isEmpty
  | fuel + 1, s, '*' :: p =>
      globMatch fuel s p ||
        (match s with
         | [] => false
         | _ :: s2 => globMatch fuel s2 ('*' :: p))
  | _ + 1, [], _ :: _ => false
  | fuel + 1, c :: s, pc :: p => (pc = '?' || pc = c) && globMatch fuel s p

/-- Modelled from the spec: `MatchPattern(str, pat)` — glob match of the
whole string against the pattern. -/
def MatchPattern (str pat : String) : Bool :=
  globMatch (str.length + pat.length + 1) str.data pat.data

/-- `MatchesAnyPattern` (source lines 88-96): an empty pattern list is a
wildcard; otherwise true iff some pattern matches. -/
def MatchesAnyPattern (patterns : List String) (str : String) : Bool :=
  if patterns.isEmpty then true
  else patterns.any (fun p => MatchPattern str p)

/-- Modelled from the spec: `consensus::MajoritySize(R) = ⌊R/2⌋ + 1`
(`quorum_util`, not in the source under scrutiny). -/
def MajoritySize (num_replicas : Nat) : Nat :=
  num_replicas / 2 + 1

/-- Modelled from the spec: `FetchInfo` transitions a tablet server to
`FETCHED` on success and `UNREACHABLE` on failure (the remote
implementation is not in the source under scrutiny). -/
def FetchInfo (ts : KsckTabletServer) (ok : Bool) : KsckTabletServer :=
  { ts with state := if ok then FetchState.FETCHED else FetchState.UNREACHABLE }

/-- `Ksck::FetchInfoFromTabletServers` (source lines 163-198).  The
per-server fetch outcome is a parameter `fetchOk` (keyed by uuid),
standing for the result of the concurrent `ConnectToTabletServer` calls;
`bad_servers` counts the failures.  Returns the status and the cluster
with the per-server fetch states updated — the directory itself is kept. -/
def FetchInfoFromTabletServers (c : KsckCluster) (fetchOk : String → Bool) :
    KStatus × KsckCluster :=
  if c.tablet_servers.length = 0 then
    (KStatus.notFound "No tablet servers found", c)
  else
    let c2 : KsckCluster :=
      { c with tablet_servers :=
          c.tablet_servers.map (fun e => (e.1, FetchInfo e.2 (fetchOk e.1))) }
    let bad_servers := (c.tablet_servers.filter (fun e => !fetchOk e.1)).length
    if bad_servers = 0 then
      (KStatus.ok, c2)
    else
      (KStatus.networkError "Not all Tablet Servers are reachable", c2)

/-- A line emitted to the output sinks, tagged with its severity marker
(the `Warn()` / `Error()` / `Info()` / `Out()` streams of the source). -/
inductive OutLine
  | warn (s : String)
  | err (s : String)
  | info (s : String)
  | raw (s : String)
  deriving Repr, DecidableEq

/-- `tablet_str` of `Ksck::VerifyTablet` (source line 568). -/
def tabletStr (tablet : KsckTablet) : String :=
  "Tablet " ++ tablet.id ++ " of table '" ++ tablet.table_name ++ "'"

/-- Warning for a replica-count disagreement (source line 573). -/
def replicaCountWarning (tablet_str : String) (actual expected : Nat) : String :=
  tablet_str ++ " has " ++ toString actual ++ " instead of " ++
    toString expected ++ " replicas"

/-- Info line for a RUNNING replica (source line 599). -/
def runningInfoMsg (ts : KsckTabletServer) : String :=
  "OK state on TS " ++ ts.ToString ++ ": " ++ TabletStatePB.RUNNING.Name

/-- Warning for a replica the server does not know about (source line 604). -/
def missingReplicaWarning (ts : KsckTabletServer) : String :=
  "Missing a tablet replica on tablet server " ++ ts.ToString

/-- Warning for a replica in a bad state (source lines 610-616). -/
def badStateWarning (ts : KsckTabletServer) (pb : TabletStatusPB) : String :=
  "Bad state on TS " ++ ts.ToString ++ ": " ++ pb.state.Name ++
    "\n  Last status: " ++ pb.last_status ++
    "\n  Data state:  " ++ pb.tablet_data_state

/-- Warning for a replica whose server is missing or unhealthy
(source line 622). -/
def unavailableWarning (who : String) : String :=
  "Should have a replica on TS " ++ who ++ ", but TS is unavailable"

/-- Error for a tablet without a live majority (source line 640). -/
def noLiveMajorityError (tablet_str : String) : String :=
  tablet_str ++ " does not have a majority of replicas on live tablet servers"

/-- Error for a tablet without a RUNNING majority (source line 643). -/
def noRunningMajorityError (tablet_str : String) : String :=
  tablet_str ++ " does not have a majority of replicas in RUNNING state"

/-- The accumulator of `Ksck::VerifyTablet`'s replica loop: the warning,
error and info lists and the role/health counters. -/
structure TabletCheck where
  warnings : List String
  errors : List String
  infos : List String
  leaders_count : Nat
  followers_count : Nat
  alive_count : Nat
  running_count : Nat
  deriving Repr, DecidableEq

/-- The health-classification part of one iteration of the replica loop of
`Ksck::VerifyTablet` (source lines 580-624): locate the server and classify
its health and per-tablet state. -/
def replicaHealthCheck (c : KsckCluster) (tablet : KsckTablet)
    (acc : TabletCheck) (replica : KsckTabletReplica) : TabletCheck :=
  match assocFind c.tablet_servers replica.ts_uuid with
  | some ts =>
      if ts.is_healthy then
        let acc := { acc with alive_count := acc.alive_count + 1 }
        match assocFind ts.tablet_status_map tablet.id with
        | some pb =>
            match pb.state with
            | TabletStatePB.RUNNING =>
                { acc with running_count := acc.running_count + 1,
                           infos := acc.infos ++ [runningInfoMsg ts] }
            | TabletStatePB.UNKNOWN =>
                { acc with warnings := acc.warnings ++ [missingReplicaWarning ts] }
            | _ =>
                { acc with warnings := acc.warnings ++ [badStateWarning ts pb] }
        | none =>
            { acc with warnings := acc.warnings ++ [missingReplicaWarning ts] }
      else
        { acc with warnings := acc.warnings ++ [unavailableWarning ts.ToString] }
  | none =>
      { acc with warnings := acc.warnings ++ [unavailableWarning replica.ts_uuid] }

/-- The role-counting tail of one iteration of the replica loop
(source lines 625-631). -/
def roleCount (acc : TabletCheck) (replica : KsckTabletReplica) : TabletCheck :=
  if replica.is_leader then
    { acc with leaders_count := acc.leaders_count + 1 }
  else if replica.is_follower then
    { acc with followers_count := acc.followers_count + 1 }
  else
    acc

/-- One iteration of the replica loop of `Ksck::VerifyTablet` (source
lines 580-632): health classification, then role counting. -/
def verifyReplicaStep (c : KsckCluster) (tablet : KsckTablet)
    (acc : TabletCheck) (replica : KsckTabletReplica) : TabletCheck :=
  roleCount (replicaHealthCheck c tablet acc replica) replica

/-- The accumulator state at the top of `Ksck::VerifyTablet` (source lines
571-575): empty lists and zero counters, except for the replica-count
warning emitted up front when `check_replica_count_` is set. -/
def verifyInit (tablet : KsckTablet) (table_num_replicas : Nat)
    (check_replica_count : Bool) : TabletCheck :=
  { warnings :=
      if check_replica_count && !(tablet.replicas.length = table_num_replicas) then
        [replicaCountWarning (tabletStr tablet) tablet.replicas.length table_num_replicas]
      else [],
    errors := [], infos := [],
    leaders_count := 0, followers_count := 0, alive_count := 0, running_count := 0 }

/-- The reducer of `Ksck::VerifyTablet` (source lines 567-645): the
replica-count warning, the replica loop, the no-leader error and the two
majority errors with their precedence. -/
def reduceTablet (c : KsckCluster) (tablet : KsckTablet)
    (table_num_replicas : Nat) (check_replica_count : Bool) : TabletCheck :=
  let acc := tablet.replicas.foldl (verifyReplicaStep c tablet)
    (verifyInit tablet table_num_replicas check_replica_count)
  let acc :=
    if acc.leaders_count = 0 then
      { acc with errors := acc.errors ++ ["No leader detected"] }
    else acc
  let majority_size := MajoritySize table_num_replicas
  if acc.alive_count < majority_size then
    { acc with errors := acc.errors ++ [noLiveMajorityError (tabletStr tablet)] }
  else if acc.running_count < majority_size then
    { acc with errors := acc.errors ++ [noRunningMajorityError (tabletStr tablet)] }
  else acc

/-- `Ksck::VerifyTablet` (source lines 567-666): runs the reducer, then
prints warnings, errors and infos in that order when the tablet has
issues; returns `!has_issues`. -/
def VerifyTablet (c : KsckCluster) (tablet : KsckTablet)
    (table_num_replicas : Nat) (check_replica_count : Bool) :
    Bool × List OutLine :=
  let tc := reduceTablet c tablet table_num_replicas check_replica_count
  let has_issues := !tc.warnings.isEmpty || !tc.errors.isEmpty
  if has_issues then
    (false,
      OutLine.warn ("Detected problems with " ++ tabletStr tablet ++ "\n" ++
        "------------------------------------------------------------") ::
      (tc.warnings.map OutLine.warn ++ tc.errors.map OutLine.err ++
        tc.infos.map OutLine.info) ++ [OutLine.raw ""])
  else
    (true, [])

/-- `Ksck::VerifyTable` (source lines 534-565): filter the tablets by the
tablet-id filters; an empty selection is healthy; otherwise verify each
tablet and report. -/
def VerifyTable (c : KsckCluster) (tablet_id_filters : List String)
    (check_replica_count : Bool) (table : KsckTable) : Bool × List OutLine :=
  let tablets := table.tablets.filter (fun t => MatchesAnyPattern tablet_id_filters t.id)
  if tablets.isEmpty then
    (true, [OutLine.info ("Table " ++ table.name ++ " has 0 matching tablets")])
  else
    let results := tablets.map
      (fun t => VerifyTablet c t table.num_replicas check_replica_count)
    let bad_tablets_count := (results.filter (fun r => !r.1)).length
    let out := results.foldl (fun acc r => acc ++ r.2) []
    if bad_tablets_count = 0 then
      (true, out ++ [OutLine.info ("Table " ++ table.name ++ " is HEALTHY (" ++
        toString tablets.length ++ " tablets checked)")])
    else
      (false, out ++ [OutLine.warn ("Table " ++ table.name ++ " has " ++
        toString bad_tablets_count ++ " bad tablets")])

/-- `Ksck::CheckTablesConsistency` (source lines 212-239): verify every
table matching the table filters; zero checked tables is OK; otherwise OK
iff no table is bad, else `Corruption` with the bad-table count. -/
def CheckTablesConsistency (c : KsckCluster)
    (table_filters tablet_id_filters : List String)
    (check_replica_count : Bool) : KStatus :=
  let checked := c.tables.filter (fun t => MatchesAnyPattern table_filters t.name)
  let bad_tables_count :=
    (checked.filter
      (fun t => !(VerifyTable c tablet_id_filters check_replica_count t).1)).length
  if checked.length = 0 then
    KStatus.ok
  else if bad_tables_count = 0 then
    KStatus.ok
  else
    KStatus.corruption bad_tables_count

/-- `ChecksumOptions` (source lines 99-113): timeout, per-server scan
concurrency, snapshot flag and snapshot timestamp (`uint64`, only compared
for equality with the sentinel here). -/
structure ChecksumOptions where
  timeout_ms : Nat
  scan_concurrency : Nat
  use_snapshot : Bool
  snapshot_timestamp : Nat
  deriving Repr, DecidableEq

/-- `ChecksumOptions::kCurrentTimestamp = 0` (source line 113). -/
def ChecksumOptions.kCurrentTimestamp : Nat := 0

/-- The outcome of one replica checksum scan as reported to the reporter:
the scan `Status` (only OK-ness matters downstream, source line 500) and
the checksum value. -/
structure ScanResult where
  ok : Bool
  checksum : Nat
  deriving Repr, DecidableEq

/-- `ChecksumResultReporter::ReplicaResultMap`: replica uuid → result. -/
abbrev ReplicaResultMap := List (String × ScanResult)

/-- `ChecksumResultReporter::TabletResultMap`: tablet id → replica map. -/
abbrev TabletResultMap := List (String × ReplicaResultMap)

/-- Replace the value stored under key `k` (used to model in-place update
of an `unordered_map` entry). -/
def assocUpdate (m : List (String × α)) (k : String) (v : α) : List (String × α) :=
  m.map (fun p => if p.1 = k then (k, v) else p)

/-- `ChecksumResultReporter::ReportResult` (source lines 263-272):
`LookupOrInsert` the tablet's inner map, then `InsertOrDie` the replica's
result.  The `InsertOrDie` crash on a duplicate report is modelled as
`none`.  (The countdown of the response latch is the length of the map.) -/
def reportResult (m : TabletResultMap) (tablet_id replica_uuid : String)
    (r : ScanResult) : Option TabletResultMap :=
  match assocFind m tablet_id with
  | none => some (m ++ [(tablet_id, [(replica_uuid, r)])])
  | some inner =>
      match assocFind inner replica_uuid with
      | some _ => none
      | none => some (assocUpdate m tablet_id (inner ++ [(replica_uuid, r)]))

/-- One `Finished` callback delivery: the tablet id and replica uuid of the
work item and the scan's result. -/
structure ReportEvent where
  tablet_id : String
  replica_uuid : String
  result : ScanResult
  deriving Repr, DecidableEq

/-- The reporter state after a sequence of `ReportResult` calls starting
from `m0` (`none` if some call hit the `InsertOrDie` crash). -/
def runReportsFrom (m0 : TabletResultMap) (events : List ReportEvent) :
    Option TabletResultMap :=
  events.foldlM (fun m e => reportResult m e.tablet_id e.replica_uuid e.result) m0

/-- The reporter state after a run: all `ReportResult` calls applied to the
initially empty map. -/
def runReports (events : List ReportEvent) : Option TabletResultMap :=
  runReportsFrom [] events

/-- The `(tablet, table)` pairs selected by the two filters
(`tablet_table_map` construction, source lines 385-395). -/
def filteredTablets (c : KsckCluster) (table_filters tablet_id_filters : List String) :
    List (KsckTablet × KsckTable) :=
  (c.tables.filter (fun t => MatchesAnyPattern table_filters t.name)).flatMap
    (fun t =>
      (t.tablets.filter (fun tb => MatchesAnyPattern tablet_id_filters tb.id)).map
        (fun tb => (tb, t)))

/-- `num_tablet_replicas` (source lines 385-395): total replica count over
the filtered tablets. -/
def num_tablet_replicas (c : KsckCluster) (table_filters tablet_id_filters : List String) :
    Nat :=
  (filteredTablets c table_filters tablet_id_filters).foldl
    (fun n p => n + p.1.replicas.length) 0

/-- The checksum work items, one per filtered tablet replica: the pairs
`(tablet_id, ts_uuid)` pushed through the per-server queues and eventually
passed to `RunTabletChecksumScanAsync` / reported by `Finished`
(source lines 417-428 and 449-464). -/
def checksumWorkItems (c : KsckCluster) (table_filters tablet_id_filters : List String) :
    List (String × String) :=
  (filteredTablets c table_filters tablet_id_filters).flatMap
    (fun p => p.1.replicas.map (fun r => (p.1.id, r.ts_uuid)))

/-- The `NotFound` message built when no tablet replicas match
(source lines 396-407). -/
def noReplicasMsg (table_filters tablet_id_filters : List String) : String :=
  let msg := "No tablet replicas found."
  if !table_filters.isEmpty || !tablet_id_filters.isEmpty then
    let msg := msg ++ " Filter: "
    let msg :=
      if !table_filters.isEmpty then
        msg ++ "table_filters=" ++ String.intercalate "," table_filters
      else msg
    if !tablet_id_filters.isEmpty then
      msg ++ "tablet_id_filters=" ++ String.intercalate "," tablet_id_filters
    else msg
  else msg

/-- Snapshot-timestamp resolution (source lines 430-444): when a snapshot
scan is requested with the sentinel timestamp, take the current timestamp
of the first healthy tablet server in the queue map's iteration order
(`tsOrder`); if the timestamp still equals the sentinel afterwards, fail
with `ServiceUnavailable`. -/
def resolveSnapshotTimestamp (tsOrder : List KsckTabletServer)
    (options : ChecksumOptions) : Except KStatus ChecksumOptions :=
  if options.use_snapshot = true ∧
      options.snapshot_timestamp = ChecksumOptions.kCurrentTimestamp then
    let options :=
      match tsOrder.find? (fun ts => ts.is_healthy) with
      | some ts => { options with snapshot_timestamp := ts.current_timestamp }
      | none => options
    if options.snapshot_timestamp = ChecksumOptions.kCurrentTimestamp then
      Except.error (KStatus.serviceUnavailable
        "No tablet servers were available to fetch the current timestamp")
    else
      Except.ok options
  else
    Except.ok options

/-- The counters of the result-classification loop (source lines 472-474). -/
structure ClassifyCounts where
  num_errors : Nat
  num_mismatches : Nat
  num_results : Nat
  deriving Repr, DecidableEq

/-- One iteration of the per-replica classification loop (source lines
488-511), threading `(seen_first_replica, first_checksum)` and the
counters: a non-OK status counts an error; the first OK checksum becomes
the reference; a later OK checksum differing from it counts a mismatch;
every result counts toward `num_results`. -/
def checksumReplicaStep (acc : Bool × Nat × ClassifyCounts) (r : ScanResult) :
    Bool × Nat × ClassifyCounts :=
  let seen_first_replica := acc.1
  let first_checksum := acc.2.1
  let st := acc.2.2
  if !r.ok then
    (seen_first_replica, first_checksum,
      { st with num_errors := st.num_errors + 1, num_results := st.num_results + 1 })
  else if !seen_first_replica then
    (true, r.checksum, { st with num_results := st.num_results + 1 })
  else if !(r.checksum = first_checksum) then
    (seen_first_replica, first_checksum,
      { st with num_mismatches := st.num_mismatches + 1,
                num_results := st.num_results + 1 })
  else
    (seen_first_replica, first_checksum, { st with num_results := st.num_results + 1 })

/-- Classification of one tablet's replica results (the inner loop of
source lines 485-511), starting with `seen_first_replica = false` and
`first_checksum = 0`. -/
def countTabletResults (results : ReplicaResultMap) (st : ClassifyCounts) :
    ClassifyCounts :=
  (results.foldl (fun a p => checksumReplicaStep a p.2) (false, 0, st)).2.2

/-- The whole classification walk (source lines 475-515): tables in source
order, their tablets in source order, counting only tablets present in the
result map. -/
def countClusterResults (c : KsckCluster) (checksums : TabletResultMap) :
    ClassifyCounts :=
  c.tables.foldl
    (fun st table =>
      table.tablets.foldl
        (fun st tablet =>
          match assocFind checksums tablet.id with
          | some results => countTabletResults results st
          | none => st)
        st)
    { num_errors := 0, num_mismatches := 0, num_results := 0 }

/-- The final status selection of `Ksck::ChecksumData` (source lines
516-531).  The `CHECK(timed_out)` guarding the incomplete-results branch is
modelled as `none` when it would fire. -/
def checksumFinalStatus (timed_out : Bool) (num_tablet_replicas : Nat)
    (st : ClassifyCounts) : Option KStatus :=
  if !(st.num_results = num_tablet_replicas) then
    if timed_out then
      some (KStatus.timedOut st.num_results num_tablet_replicas)
    else
      none
  else if !(st.num_mismatches = 0) then
    some (KStatus.corruption st.num_mismatches)
  else if !(st.num_errors = 0) then
    some (KStatus.aborted st.num_errors)
  else
    some KStatus.ok

/-- The nondeterministic outcome of the scan phase: the sequence of
`Finished` reports that reached the reporter before its snapshot was taken
(in arrival order), and the value `WaitFor` returned (`false` = the
deadline expired first). -/
structure ScanOutcome where
  events : List ReportEvent
  wait_ok : Bool

/-- `Ksck::ChecksumData` (source lines 378-532): filter and count the
replicas (empty → `NotFound`), build the per-server queues (the `FindOrDie`
on an unknown replica uuid is modelled as `none`), resolve the snapshot
timestamp against the queue map's iteration order `tsOrder`, run the scans
(their nondeterministic outcome is the parameter), then classify. -/
def ChecksumData (c : KsckCluster) (table_filters tablet_id_filters : List String)
    (opts : ChecksumOptions) (tsOrder : List KsckTabletServer)
    (outcome : ScanOutcome) : Option KStatus :=
  if num_tablet_replicas c table_filters tablet_id_filters = 0 then
    some (KStatus.notFound (noReplicasMsg table_filters tablet_id_filters))
  else if (checksumWorkItems c table_filters tablet_id_filters).all
      (fun w => (assocFind c.tablet_servers w.2).isSome) then
    match resolveSnapshotTimestamp tsOrder opts with
    | Except.error st => some st
    | Except.ok _ =>
        match runReports outcome.events with
        | none => none
        | some checksums =>
            let timed_out := !outcome.wait_ok
            checksumFinalStatus timed_out
              (num_tablet_replicas c table_filters tablet_id_filters)
              (countClusterResults c checksums)
  else
    none

/-- All tablets of the cluster, in source traversal order. -/
def clusterTablets (c : KsckCluster) : List KsckTablet :=
  c.tables.flatMap (fun t => t.tablets)

/-- Well-formedness of the frozen snapshot: tablet ids are unique across
the cluster, replica uuids are unique within each tablet (both are
identities in the data model), and every replica references a uuid present
in the tablet-server directory (spec §3 invariant). -/
structure ClusterWF (c : KsckCluster) : Prop where
  tablet_ids_nodup : ((clusterTablets c).map (fun t => t.id)).Nodup
  replica_uuids_nodup :
    ∀ t ∈ clusterTablets c, (t.replicas.map (fun r => r.ts_uuid)).Nodup
  replica_uuid_in_directory :
    ∀ t ∈ clusterTablets c, ∀ r ∈ t.replicas,
      (assocFind c.tablet_servers r.ts_uuid).isSome = true

/-- The `(tablet_id, replica_uuid)` pairs of a list of report events. -/
def eventPairs (events : List ReportEvent) : List (String × String) :=
  events.map (fun e => (e.tablet_id, e.replica_uuid))

/-- Validity of a scan-phase outcome: every report comes from a distinct
work item (each `Finished` callback fires at most once per work item), and
`WaitFor` returns `true` only when the response latch reached zero, i.e.
when every one of the `num_tablet_replicas` expected reports arrived. -/
def ScanOutcomeValid (c : KsckCluster) (table_filters tablet_id_filters : List String)
    (o : ScanOutcome) : Prop :=
  (eventPairs o.events).Subperm (checksumWorkItems c table_filters tablet_id_filters) ∧
  (o.wait_ok = true →
    o.events.length = num_tablet_replicas c table_filters tablet_id_filters)

/-- The final-status decision procedure as the specification words it:
first-match precedence `TimedOut` → `Corruption` → `Aborted` → `OK`, where
`TimedOut` requires both an expired deadline and fewer results than
expected replicas. -/
def specFinalStatus (timed_out : Bool) (expected : Nat) (st : ClassifyCounts) :
    KStatus :=
  if timed_out = true ∧ st.num_results < expected then
    KStatus.timedOut st.num_results expected
  else if !(st.num_mismatches = 0) then
    KStatus.corruption st.num_mismatches
  else if !(st.num_errors = 0) then
    KStatus.aborted st.num_errors
  else
    KStatus.ok

/-- The per-tablet mismatch count as the specification words it: the first
successful replica's checksum is the reference, and every subsequent
successful replica whose checksum differs from it counts as one mismatch. -/
def specMismatchCount (results : List ScanResult) : Nat :=
  match results.filter (fun r => r.ok) with
  | [] => 0
  | first :: rest =>
      (rest.filter (fun r => !(r.checksum = first.checksum))).length

/-- The keys of the outer result map. -/
def mapKeys (m : TabletResultMap) : List String :=
  m.map (fun p => p.1)

/-- All `(tablet_id, replica_uuid)` pairs recorded in the result map. -/
def mapPairs (m : TabletResultMap) : List (String × String) :=
  m.flatMap (fun p => p.2.map (fun q => (p.1, q.1)))

/-- The total number of recorded per-replica results (the number of
`ReportResult` calls absorbed by the map, i.e. the latch countdown). -/
def totalResults (m : TabletResultMap) : Nat :=
  (m.map (fun p => p.2.length)).sum

/-- The number of results the classification walk will count for one
tablet id: the size of its inner map, or zero if absent. -/
def weightOf (m : TabletResultMap) (k : String) : Nat :=
  match assocFind m k with
  | some inner => inner.length
  | none => 0

/-- The per-tablet mismatch count the classification loop produces for one
tablet's replica results, starting from zeroed counters. -/
def tabletMismatchCount (results : ReplicaResultMap) : Nat :=
  (countTabletResults results
    { num_errors := 0, num_mismatches := 0, num_results := 0 }).num_mismatches

/-- A healthy sample tablet server used to instantiate the theorems. -/
def wTs (u : String) : KsckTabletServer :=
  { uuid := u, address := "addr", state := FetchState.FETCHED,
    tablet_status_map :=
      [("x", { state := TabletStatePB.RUNNING, last_status := "",
               tablet_data_state := "NONE" })],
    current_timestamp := 12345 }

/-- A sample replica. -/
def wReplica (u : String) (lead : Bool) : KsckTabletReplica :=
  { ts_uuid := u, is_leader := lead, is_follower := !lead }

/-- A sample tablet with three replicas. -/
def wTablet : KsckTablet :=
  { id := "x", table_name := "t1",
    replicas := [wReplica "u1" true, wReplica "u2" false, wReplica "u3" false] }

/-- A sample table with replication factor 3. -/
def wTable : KsckTable :=
  { name := "t1", num_replicas := 3, tablets := [wTablet] }

/-- A sample cluster: one table, one tablet, three healthy servers. -/
def wCluster : KsckCluster :=
  { tables := [wTable],
    tablet_servers := [("u1", wTs "u1"), ("u2", wTs "u2"), ("u3", wTs "u3")] }

/-- Checksum options with snapshot scans disabled. -/
def wOpts : ChecksumOptions :=
  { timeout_ms := 1000, scan_concurrency := 4, use_snapshot := false,
    snapshot_timestamp := 0 }

/-- Checksum options requesting a snapshot scan at the sentinel timestamp. -/
def snapOpts : ChecksumOptions :=
  { timeout_ms := 1000, scan_concurrency := 4, use_snapshot := true,
    snapshot_timestamp := 0 }

/-- Report events delivering the given three checksums for the sample
tablet's replicas, all successful, in replica order. -/
def wEvents (k1 k2 k3 : Nat) : List ReportEvent :=
  [{ tablet_id := "x", replica_uuid := "u1", result := { ok := true, checksum := k1 } },
   { tablet_id := "x", replica_uuid := "u2", result := { ok := true, checksum := k2 } },
   { tablet_id := "x", replica_uuid := "u3", result := { ok := true, checksum := k3 } }]

/-- Report events for the sample tablet delivering the checksum multiset
`{0, 0, 1}` with the odd one out arriving first. -/
def mismatchEvents : List ReportEvent :=
  [{ tablet_id := "x", replica_uuid := "u3", result := { ok := true, checksum := 1 } },
   { tablet_id := "x", replica_uuid := "u1", result := { ok := true, checksum := 0 } },
   { tablet_id := "x", replica_uuid := "u2", result := { ok := true, checksum := 0 } }]

/-- A healthy tablet server whose reported current timestamp is the
sentinel value 0. -/
def zeroTsServer : KsckTabletServer :=
  { uuid := "z", address := "addr", state := FetchState.FETCHED,
    tablet_status_map := [], current_timestamp := 0 }

theorem assocFind_eq_none_iff {α : Type} (m : List (String × α)) (k : String) :
    assocFind m k = none ↔ k ∉ m.map (fun p => p.1) := by
  induction m with
  | nil => simp [assocFind]
  | cons p m ih =>
      by_cases h : p.1 = k
      · simp [assocFind, h]
      · simp only [assocFind, h, if_neg, not_false_iff, List.map_cons,
          List.mem_cons, ih]
        constructor
        · intro hk hc
          rcases hc with hc | hc
          · exact h hc.symm
          · exact hk hc
        · intro hk
          exact fun hc => hk (Or.inr hc)

theorem assocFind_mem {α : Type} {m : List (String × α)} {k : String} {v : α}
    (h : assocFind m k = some v) : (k, v) ∈ m := by
  induction m with
  | nil => simp [assocFind] at h
  | cons p m ih =>
      by_cases hk : p.1 = k
      · simp only [assocFind, hk, if_pos, Option.some.injEq] at h
        subst h
        have : (k, p.2) = p := by
          rw [← hk]
        rw [this]
        exact List.mem_cons_self p m
      · simp only [assocFind, hk, if_neg, not_false_iff] at h
        exact List.mem_cons_of_mem _ (ih h)

theorem keys_assocUpdate {α : Type} (m : List (String × α)) (k : String) (v : α) :
    (assocUpdate m k v).map (fun p => p.1) = m.map (fun p => p.1) := by
  induction m with
  | nil => rfl
  | cons p m ih =>
      have h1 : ((if p.1 = k then (k, v) else p)).1 = p.1 := by
        by_cases h : p.1 = k
        · simp [h]
        · simp [h]
      simp only [assocUpdate, List.map_cons] at ih ⊢
      rw [h1, ih]

theorem assocUpdate_not_mem {α : Type} {m : List (String × α)} {k : String}
    (v : α) (h : k ∉ m.map (fun p => p.1)) : assocUpdate m k v = m := by
  induction m with
  | nil => rfl
  | cons p m ih =>
      simp only [List.map_cons, List.mem_cons] at h
      have hp : ¬(p.1 = k) := fun hc => h (Or.inl hc.symm)
      simp only [assocUpdate, List.map_cons, hp, if_neg, not_false_iff] at ih ⊢
      rw [ih (fun hc => h (Or.inr hc))]

theorem length_mapPairs (m : TabletResultMap) :
    (mapPairs m).length = totalResults m := by
  simp only [mapPairs, totalResults, List.length_flatMap, Function.comp_def,
    List.length_map]

theorem reportResult_none {m : TabletResultMap} {t u : String} {r : ScanResult}
    (h : reportResult m t u r = none) : (t, u) ∈ mapPairs m := by
  unfold reportResult at h
  cases hf : assocFind m t with
  | none => simp [hf] at h
  | some inner =>
      rw [hf] at h
      cases hg : assocFind inner u with
      | none => simp [hg] at h
      | some r2 =>
          have h1 : (t, inner) ∈ m := assocFind_mem hf
          have h2 : (u, r2) ∈ inner := assocFind_mem hg
          simp only [mapPairs, List.mem_flatMap]
          exact ⟨(t, inner), h1, List.mem_map.2 ⟨(u, r2), h2, rfl⟩⟩

theorem mapPairs_cons (p : String × ReplicaResultMap) (m : TabletResultMap) :
    mapPairs (p :: m) = p.2.map (fun q => (p.1, q.1)) ++ mapPairs m := by
  simp [mapPairs]

theorem pairs_assocUpdate {m : TabletResultMap} {t : String} {inner : ReplicaResultMap}
    (u : String) (r : ScanResult)
    (hnd : (mapKeys m).Nodup) (hf : assocFind m t = some inner) :
    List.Perm (mapPairs (assocUpdate m t (inner ++ [(u, r)])))
      ((t, u) :: mapPairs m) := by
  induction m with
  | nil => simp [assocFind] at hf
  | cons p m ih =>
      by_cases hp : p.1 = t
      · have hinner : p.2 = inner := by
          simp only [assocFind, hp, if_pos, Option.some.injEq] at hf
          exact hf
        have htm : t ∉ m.map (fun q => q.1) := by
          simp only [mapKeys, List.map_cons, List.nodup_cons] at hnd
          rw [← hp]
          exact hnd.1
        have hrest : assocUpdate m t (inner ++ [(u, r)]) = m :=
          assocUpdate_not_mem _ htm
        have hhead : (if p.1 = t then (t, inner ++ [(u, r)]) else p) =
            (t, inner ++ [(u, r)]) := by
          rw [if_pos hp]
        show List.Perm
          (mapPairs ((if p.1 = t then (t, inner ++ [(u, r)]) else p) ::
            assocUpdate m t (inner ++ [(u, r)])))
          ((t, u) :: mapPairs (p :: m))
        rw [hhead, hrest, mapPairs_cons, mapPairs_cons]
        simp only [List.map_append, List.map_cons, List.map_nil]
        rw [List.append_assoc]
        refine List.Perm.trans List.perm_middle (List.Perm.cons _ ?_)
        rw [← hinner, hp]
        exact List.Perm.refl _
      · have hf2 : assocFind m t = some inner := by
          simp only [assocFind, hp, if_neg, not_false_iff] at hf
          exact hf
        have hnd2 : (mapKeys m).Nodup := by
          simp only [mapKeys, List.map_cons, List.nodup_cons] at hnd
          exact hnd.2
        have hstep := ih hnd2 hf2
        have hhead : (if p.1 = t then (t, inner ++ [(u, r)]) else p) = p := by
          rw [if_neg hp]
        show List.Perm
          (mapPairs ((if p.1 = t then (t, inner ++ [(u, r)]) else p) ::
            assocUpdate m t (inner ++ [(u, r)])))
          ((t, u) :: mapPairs (p :: m))
        rw [hhead, mapPairs_cons, mapPairs_cons]
        refine List.Perm.trans (List.Perm.append_left _ hstep) ?_
        exact List.perm_middle

theorem reportResult_step {m m2 : TabletResultMap} {t u : String} {r : ScanResult}
    (hnd : (mapKeys m).Nodup) (h : reportResult m t u r = some m2) :
    (mapKeys m2).Nodup ∧ List.Perm (mapPairs m2) ((t, u) :: mapPairs m) ∧
      mapKeys m2 ⊆ t :: mapKeys m := by
  unfold reportResult at h
  cases hf : assocFind m t with
  | none =>
      simp only [hf] at h
      have hm2 : m2 = m ++ [(t, [(u, r)])] := by
        cases h
        rfl
      subst hm2
      have ht : t ∉ m.map (fun p => p.1) := (assocFind_eq_none_iff m t).1 hf
      refine ⟨?_, ?_, ?_⟩
      · simp only [mapKeys, List.map_append, List.map_cons, List.map_nil]
        rw [List.nodup_append]
        refine ⟨hnd, List.nodup_singleton t, ?_⟩
        intro a ha hb
        simp only [List.mem_cons, List.not_mem_nil, or_false] at hb
        subst hb
        exact ht ha
      · simp only [mapPairs, List.flatMap_append, List.flatMap_cons,
          List.flatMap_nil, List.map_cons, List.map_nil, List.append_nil]
        exact List.perm_append_singleton _ _
      · intro a ha
        simp only [mapKeys, List.map_append, List.mem_append, List.map_cons,
          List.map_nil, List.mem_cons, List.not_mem_nil, or_false] at ha
        rcases ha with ha | ha
        · exact List.mem_cons_of_mem _ ha
        · rw [ha]
          exact List.mem_cons_self _ _
  | some inner =>
      simp only [hf] at h
      cases hg : assocFind inner u with
      | some r2 =>
          simp only [hg] at h
          cases h
      | none =>
          simp only [hg] at h
          have hm2 : m2 = assocUpdate m t (inner ++ [(u, r)]) := by
            cases h
            rfl
          subst hm2
          refine ⟨?_, pairs_assocUpdate u r hnd hf, ?_⟩
          · show ((assocUpdate m t (inner ++ [(u, r)])).map (fun p => p.1)).Nodup
            rw [keys_assocUpdate]
            exact hnd
          · intro a ha
            show a ∈ t :: mapKeys m
            have : a ∈ mapKeys m := by
              show a ∈ m.map (fun p => p.1)
              rw [← keys_assocUpdate m t (inner ++ [(u, r)])]
              exact ha
            exact List.mem_cons_of_mem _ this

theorem eventPairs_cons (e : ReportEvent) (es : List ReportEvent) :
    eventPairs (e :: es) = (e.tablet_id, e.replica_uuid) :: eventPairs es := rfl

theorem runReportsFrom_cons (m0 : TabletResultMap) (e : ReportEvent)
    (events : List ReportEvent) :
    runReportsFrom m0 (e :: events) =
      match reportResult m0 e.tablet_id e.replica_uuid e.result with
      | none => none
      | some m1 => runReportsFrom m1 events := by
  cases h : reportResult m0 e.tablet_id e.replica_uuid e.result with
  | none => simp [runReportsFrom, List.foldlM_cons, h]
  | some m1 => simp [runReportsFrom, List.foldlM_cons, h]

theorem runReportsFrom_ok :
    ∀ (events : List ReportEvent) (m0 : TabletResultMap),
    (mapKeys m0).Nodup →
    (mapPairs m0 ++ eventPairs events).Nodup →
    ∃ m, runReportsFrom m0 events = some m ∧ (mapKeys m).Nodup ∧
      List.Perm (mapPairs m) (mapPairs m0 ++ eventPairs events) ∧
      mapKeys m ⊆ mapKeys m0 ++ (eventPairs events).map (fun p => p.1) := by
  intro events
  induction events with
  | nil =>
      intro m0 h1 h2
      refine ⟨m0, rfl, h1, ?_, ?_⟩
      · simp [eventPairs]
      · simp [eventPairs]
  | cons e es ih =>
      intro m0 h1 h2
      rw [eventPairs_cons] at h2
      cases hrr : reportResult m0 e.tablet_id e.replica_uuid e.result with
      | none =>
          exfalso
          have hmem := reportResult_none hrr
          rw [List.nodup_append] at h2
          exact h2.2.2 hmem (List.mem_cons_self _ _)
      | some m1 =>
          obtain ⟨hk1, hperm1, hsub1⟩ := reportResult_step h1 hrr
          have hmid : List.Perm
              (mapPairs m0 ++ (e.tablet_id, e.replica_uuid) :: eventPairs es)
              ((e.tablet_id, e.replica_uuid) :: (mapPairs m0 ++ eventPairs es)) :=
            List.perm_middle
          have hperm2 : List.Perm (mapPairs m1 ++ eventPairs es)
              ((e.tablet_id, e.replica_uuid) :: (mapPairs m0 ++ eventPairs es)) := by
            have h5 := hperm1.append_right (eventPairs es)
            rw [List.cons_append] at h5
            exact h5
          have hn2 : (mapPairs m1 ++ eventPairs es).Nodup :=
            hperm2.symm.nodup (hmid.nodup h2)
          obtain ⟨m, hrun, hknd, hperm, hsub⟩ := ih m1 hk1 hn2
          refine ⟨m, ?_, hknd, ?_, ?_⟩
          · rw [runReportsFrom_cons, hrr]
            exact hrun
          · rw [eventPairs_cons]
            exact (hperm.trans hperm2).trans hmid.symm
          · intro a ha
            have h3 := hsub ha
            rw [List.mem_append] at h3
            rw [eventPairs_cons, List.map_cons]
            rcases h3 with h3 | h3
            · have h4 := hsub1 h3
              rw [List.mem_cons] at h4
              rcases h4 with h4 | h4
              · rw [List.mem_append]
                right
                rw [h4]
                exact List.mem_cons_self _ _
              · rw [List.mem_append]
                exact Or.inl h4
            · rw [List.mem_append]
              right
              exact List.mem_cons_of_mem _ h3

theorem runReports_ok (events : List ReportEvent)
    (hnd : (eventPairs events).Nodup) :
    ∃ m, runReports events = some m ∧ (mapKeys m).Nodup ∧
      List.Perm (mapPairs m) (eventPairs events) ∧
      mapKeys m ⊆ (eventPairs events).map (fun p => p.1) := by
  have h0 : (mapKeys ([] : TabletResultMap)).Nodup := List.nodup_nil
  have h1 : (mapPairs ([] : TabletResultMap) ++ eventPairs events).Nodup := by
    simpa [mapPairs] using hnd
  obtain ⟨m, hrun, hknd, hperm, hsub⟩ := runReportsFrom_ok events [] h0 h1
  refine ⟨m, hrun, hknd, ?_, ?_⟩
  · simpa [mapPairs] using hperm
  · simpa [mapKeys] using hsub

theorem checksumReplicaStep_num_results (a : Bool × Nat × ClassifyCounts)
    (r : ScanResult) :
    (checksumReplicaStep a r).2.2.num_results = a.2.2.num_results + 1 := by
  unfold checksumReplicaStep
  by_cases h1 : r.ok <;> by_cases h2 : a.1 <;>
    by_cases h3 : r.checksum = a.2.1 <;> simp [h1, h2, h3]

theorem countReplicaFold_num_results :
    ∀ (results : ReplicaResultMap) (acc : Bool × Nat × ClassifyCounts),
    ((results.foldl (fun a p => checksumReplicaStep a p.2) acc)).2.2.num_results =
      acc.2.2.num_results + results.length := by
  intro results
  induction results with
  | nil => intro acc; simp
  | cons p results ih =>
      intro acc
      rw [List.foldl_cons, ih, checksumReplicaStep_num_results]
      simp [Nat.add_comm, Nat.add_assoc, Nat.add_left_comm]

theorem countTabletResults_num_results (results : ReplicaResultMap)
    (st : ClassifyCounts) :
    (countTabletResults results st).num_results = st.num_results + results.length := by
  rw [countTabletResults, countReplicaFold_num_results]

theorem foldl_flatMap_eq {α β γ : Type} (l : List α) (f : α → List β)
    (g : γ → β → γ) (init : γ) :
    (l.flatMap f).foldl g init = l.foldl (fun st a => (f a).foldl g st) init := by
  induction l generalizing init with
  | nil => rfl
  | cons a l ih => simp [List.flatMap_cons, List.foldl_append, ih]

theorem countClusterResults_eq_foldl (c : KsckCluster) (m : TabletResultMap) :
    countClusterResults c m =
      (clusterTablets c).foldl
        (fun st tablet =>
          match assocFind m tablet.id with
          | some results => countTabletResults results st
          | none => st)
        { num_errors := 0, num_mismatches := 0, num_results := 0 } := by
  rw [clusterTablets, foldl_flatMap_eq]
  rfl

theorem countFold_num_results (m : TabletResultMap) :
    ∀ (tablets : List KsckTablet) (st : ClassifyCounts),
    (tablets.foldl
      (fun st tablet =>
        match assocFind m tablet.id with
        | some results => countTabletResults results st
        | none => st)
      st).num_results =
      st.num_results + (tablets.map (fun tb => weightOf m tb.id)).sum := by
  intro tablets
  induction tablets with
  | nil => intro st; simp
  | cons tb tablets ih =>
      intro st
      rw [List.foldl_cons, ih]
      cases h : assocFind m tb.id with
      | none => simp [weightOf, h]
      | some results =>
          rw [countTabletResults_num_results]
          simp only [weightOf, h, List.map_cons, List.sum_cons]
          omega

theorem sum_map_ite (ids : List String) (k : String) (a : Nat) (g : String → Nat)
    (hnd : ids.Nodup) (hk : k ∈ ids) (hg : g k = 0) :
    (ids.map (fun t => if k = t then a else g t)).sum = a + (ids.map g).sum := by
  induction ids with
  | nil => cases hk
  | cons i ids ih =>
      rw [List.nodup_cons] at hnd
      by_cases hik : k = i
      · subst hik
        have hmap : ids.map (fun t => if k = t then a else g t) = ids.map g :=
          List.map_congr_left (fun t ht => by
            have hne : ¬(k = t) := fun hc => hnd.1 (hc ▸ ht)
            rw [if_neg hne])
        rw [List.map_cons, List.sum_cons, if_pos rfl, hmap, List.map_cons,
          List.sum_cons, hg]
        omega
      · have hk2 : k ∈ ids := by
          rcases List.mem_cons.1 hk with h | h
          · exact absurd h hik
          · exact h
        rw [List.map_cons, List.map_cons, List.sum_cons, List.sum_cons,
          if_neg hik, ih hnd.2 hk2]
        omega

theorem sum_weightOf_eq_totalResults :
    ∀ (m : TabletResultMap) (ids : List String),
    ids.Nodup → (mapKeys m).Nodup → (∀ k ∈ mapKeys m, k ∈ ids) →
    (ids.map (weightOf m)).sum = totalResults m := by
  intro m
  induction m with
  | nil =>
      intro ids _ _ _
      have : ids.map (weightOf []) = ids.map (fun _ => 0) :=
        List.map_congr_left (fun t _ => by simp [weightOf, assocFind])
      simp [this, totalResults]
  | cons p m ih =>
      intro ids hids hnd hsub
      have hk : p.1 ∈ ids := hsub p.1 (by simp [mapKeys])
      have hnd2 : (mapKeys (p :: m)).Nodup = (p.1 :: mapKeys m).Nodup := rfl
      rw [hnd2, List.nodup_cons] at hnd
      have hg : weightOf m p.1 = 0 := by
        rw [weightOf, (assocFind_eq_none_iff m p.1).2 hnd.1]
      have hcong : ids.map (weightOf (p :: m)) =
          ids.map (fun t => if p.1 = t then p.2.length else weightOf m t) :=
        List.map_congr_left (fun t _ => by
          by_cases h : p.1 = t
          · simp [weightOf, assocFind, h]
          · simp [weightOf, assocFind, h])
      rw [hcong, sum_map_ite ids p.1 p.2.length (weightOf m) hids hk hg,
        ih ids hids hnd.2 (fun k hkm => hsub k (List.mem_cons_of_mem _ hkm))]
      simp [totalResults]

theorem countClusterResults_num_results (c : KsckCluster) (m : TabletResultMap)
    (hnd : ((clusterTablets c).map (fun t => t.id)).Nodup)
    (hknd : (mapKeys m).Nodup)
    (hsub : ∀ k ∈ mapKeys m, k ∈ (clusterTablets c).map (fun t => t.id)) :
    (countClusterResults c m).num_results = totalResults m := by
  rw [countClusterResults_eq_foldl, countFold_num_results]
  have hmm : (clusterTablets c).map (fun tb => weightOf m tb.id) =
      ((clusterTablets c).map (fun t => t.id)).map (weightOf m) := by
    rw [List.map_map]
    rfl
  rw [hmm, sum_weightOf_eq_totalResults m _ hnd hknd hsub]
  simp

theorem sublist_flatMap {α β : Type} (f g : α → List β)
    (h : ∀ a, (g a).Sublist (f a)) :
    ∀ {l1 l2 : List α}, l1.Sublist l2 → (l1.flatMap g).Sublist (l2.flatMap f) := by
  intro l1 l2 hs
  induction hs with
  | slnil => simp
  | cons a hs ih =>
      rw [List.flatMap_cons]
      exact ih.trans (List.sublist_append_right _ _)
  | cons₂ a hs ih =>
      rw [List.flatMap_cons, List.flatMap_cons]
      exact (h a).append ih

theorem filteredTablets_ids_sublist (c : KsckCluster) (tf ti : List String) :
    ((filteredTablets c tf ti).map (fun p => p.1.id)).Sublist
      ((clusterTablets c).map (fun t => t.id)) := by
  rw [filteredTablets, clusterTablets, List.map_flatMap, List.map_flatMap]
  refine sublist_flatMap _ _ ?_ (List.filter_sublist _)
  intro t
  rw [List.map_map]
  exact (List.filter_sublist _).map _

theorem mem_filteredTablets {c : KsckCluster} {tf ti : List String}
    {p : KsckTablet × KsckTable} (h : p ∈ filteredTablets c tf ti) :
    p.1 ∈ clusterTablets c := by
  rw [filteredTablets, List.mem_flatMap] at h
  obtain ⟨t, ht, hp⟩ := h
  rw [List.mem_map] at hp
  obtain ⟨tb, htb, rfl⟩ := hp
  rw [clusterTablets, List.mem_flatMap]
  exact ⟨t, (List.mem_filter.1 ht).1, (List.mem_filter.1 htb).1⟩

theorem workItems_eq (c : KsckCluster) (tf ti : List String) :
    checksumWorkItems c tf ti =
      (filteredTablets c tf ti).flatMap
        (fun p => (p.1.replicas.map (fun r => r.ts_uuid)).map
          (fun u => (p.1.id, u))) := by
  rw [checksumWorkItems]
  congr 1
  funext p
  rw [List.map_map]
  rfl

theorem nodup_checksumWorkItems {c : KsckCluster} (tf ti : List String)
    (hwf : ClusterWF c) : (checksumWorkItems c tf ti).Nodup := by
  rw [workItems_eq, List.nodup_flatMap]
  constructor
  · intro p hp
    refine (hwf.replica_uuids_nodup p.1 (mem_filteredTablets hp)).map ?_
    intro u v huv
    exact congrArg Prod.snd huv
  · have hids : ((filteredTablets c tf ti).map (fun p => p.1.id)).Nodup :=
      hwf.tablet_ids_nodup.sublist (filteredTablets_ids_sublist c tf ti)
    have hpw : (filteredTablets c tf ti).Pairwise (fun a b => a.1.id ≠ b.1.id) := by
      rw [List.Nodup, List.pairwise_map] at hids
      exact hids
    refine hpw.imp ?_
    intro a b hab
    intro x hxa hxb
    rw [List.mem_map] at hxa hxb
    obtain ⟨u, _, rfl⟩ := hxa
    obtain ⟨v, _, hx⟩ := hxb
    exact hab (congrArg Prod.fst hx).symm

theorem foldl_add_eq_sum {α : Type} (f : α → Nat) :
    ∀ (l : List α) (n : Nat), l.foldl (fun n a => n + f a) n = n + (l.map f).sum := by
  intro l
  induction l with
  | nil => intro n; simp
  | cons a l ih =>
      intro n
      rw [List.foldl_cons, ih, List.map_cons, List.sum_cons]
      omega

theorem length_checksumWorkItems (c : KsckCluster) (tf ti : List String) :
    (checksumWorkItems c tf ti).length = num_tablet_replicas c tf ti := by
  rw [checksumWorkItems, num_tablet_replicas, List.length_flatMap,
    foldl_add_eq_sum]
  simp [Function.comp_def, List.length_map]

theorem workItem_uuid_isSome {c : KsckCluster} {tf ti : List String}
    (hwf : ClusterWF c) :
    ∀ w ∈ checksumWorkItems c tf ti,
      (assocFind c.tablet_servers w.2).isSome = true := by
  intro w hw
  rw [checksumWorkItems, List.mem_flatMap] at hw
  obtain ⟨p, hp, hwp⟩ := hw
  rw [List.mem_map] at hwp
  obtain ⟨r, hr, rfl⟩ := hwp
  exact hwf.replica_uuid_in_directory p.1 (mem_filteredTablets hp) r hr

theorem workItem_fst_mem {c : KsckCluster} {tf ti : List String}
    {w : String × String} (hw : w ∈ checksumWorkItems c tf ti) :
    w.1 ∈ (clusterTablets c).map (fun t => t.id) := by
  rw [checksumWorkItems, List.mem_flatMap] at hw
  obtain ⟨p, hp, hwp⟩ := hw
  rw [List.mem_map] at hwp
  obtain ⟨r, _, rfl⟩ := hwp
  exact List.mem_map.2 ⟨p.1, mem_filteredTablets hp, rfl⟩

theorem checksum_run_counts (c : KsckCluster) (tf ti : List String)
    (o : ScanOutcome) (hwf : ClusterWF c)
    (hvalid : ScanOutcomeValid c tf ti o) :
    ∃ m, runReports o.events = some m ∧
      (countClusterResults c m).num_results = o.events.length := by
  obtain ⟨hsubperm, _⟩ := hvalid
  have hwork : (checksumWorkItems c tf ti).Nodup :=
    nodup_checksumWorkItems tf ti hwf
  have hnd : (eventPairs o.events).Nodup := by
    obtain ⟨l, hp, hs⟩ := hsubperm
    exact hp.nodup (hwork.sublist hs)
  obtain ⟨m, hrun, hknd, hperm, hsub⟩ := runReports_ok o.events hnd
  refine ⟨m, hrun, ?_⟩
  have hkeys : ∀ k ∈ mapKeys m, k ∈ (clusterTablets c).map (fun t => t.id) := by
    intro k hk
    have hk2 := hsub hk
    rw [List.mem_map] at hk2
    obtain ⟨pr, hpr, rfl⟩ := hk2
    exact workItem_fst_mem (hsubperm.subset hpr)
  rw [countClusterResults_num_results c m hwf.tablet_ids_nodup hknd hkeys,
    ← length_mapPairs, hperm.length_eq]
  simp [eventPairs]

theorem checksumFinalStatus_eq_spec (timed_out : Bool) (expected : Nat)
    (st : ClassifyCounts) (hle : st.num_results ≤ expected)
    (himp : timed_out = false → st.num_results = expected) :
    checksumFinalStatus timed_out expected st =
      some (specFinalStatus timed_out expected st) := by
  by_cases heq : st.num_results = expected
  · have hnlt : ¬(timed_out = true ∧ st.num_results < expected) := by
      intro hc
      omega
    by_cases hm : st.num_mismatches = 0
    · by_cases he : st.num_errors = 0
      · simp [checksumFinalStatus, specFinalStatus, heq, hm, he, hnlt]
      · simp [checksumFinalStatus, specFinalStatus, heq, hm, he, hnlt]
    · simp [checksumFinalStatus, specFinalStatus, heq, hm, hnlt]
  · have hlt : st.num_results < expected := Nat.lt_of_le_of_ne hle heq
    have hto : timed_out = true := by
      cases h : timed_out with
      | false => exact absurd (himp h) heq
      | true => rfl
    simp [checksumFinalStatus, specFinalStatus, heq, hto, hlt]

theorem scanOutcome_length_le (c : KsckCluster) (tf ti : List String)
    (o : ScanOutcome) (hvalid : ScanOutcomeValid c tf ti o) :
    o.events.length ≤ num_tablet_replicas c tf ti := by
  have h1 := hvalid.1.length_le
  rw [length_checksumWorkItems] at h1
  simpa [eventPairs] using h1

/-- C1: for every run of `ChecksumData` over a frozen snapshot (with a
nonempty filtered work set and a successful snapshot-timestamp
resolution), the terminal status is decided by first-match precedence
`TimedOut` (deadline expired and fewer results than filtered replicas) →
`Corruption(num_mismatches)` → `Aborted(num_errors)` → `OK`, as computed by
`specFinalStatus` over the classification counters. -/
theorem checksumData_final_status_precedence (c : KsckCluster)
    (tf ti : List String) (opts : ChecksumOptions)
    (tsOrder : List KsckTabletServer) (o : ScanOutcome)
    (hwf : ClusterWF c) (hvalid : ScanOutcomeValid c tf ti o)
    (hnum : ¬(num_tablet_replicas c tf ti = 0))
    (hres : ∃ o2, resolveSnapshotTimestamp tsOrder opts = Except.ok o2) :
    ∃ checksums, runReports o.events = some checksums ∧
      ChecksumData c tf ti opts tsOrder o =
        some (specFinalStatus (!o.wait_ok) (num_tablet_replicas c tf ti)
          (countClusterResults c checksums)) := by
  obtain ⟨m, hrun, hcount⟩ := checksum_run_counts c tf ti o hwf hvalid
  obtain ⟨o2, ho2⟩ := hres
  refine ⟨m, hrun, ?_⟩
  have hall : (checksumWorkItems c tf ti).all
      (fun w => (assocFind c.tablet_servers w.2).isSome) = true :=
    List.all_eq_true.2 (fun w hw => workItem_uuid_isSome hwf w hw)
  rw [ChecksumData, if_neg hnum, if_pos hall, ho2, hrun]
  apply checksumFinalStatus_eq_spec
  · rw [hcount]
    exact scanOutcome_length_le c tf ti o hvalid
  · intro hnt
    have hw : o.wait_ok = true := by
      cases h : o.wait_ok with
      | false => rw [h] at hnt; simp at hnt
      | true => rfl
    rw [hcount]
    exact hvalid.2 hw

/-- C1 witness: a clean three-replica run where all checksums agree; the
precedence theorem applies and yields `OK`'s counters. -/
theorem checksumData_final_status_precedence_witness :
    ∃ checksums, runReports (wEvents 42 42 42) = some checksums ∧
      ChecksumData wCluster [] [] wOpts [] { events := wEvents 42 42 42, wait_ok := true } =
        some (specFinalStatus (!true) (num_tablet_replicas wCluster [] [])
          (countClusterResults wCluster checksums)) :=
  checksumData_final_status_precedence wCluster [] [] wOpts []
    { events := wEvents 42 42 42, wait_ok := true }
    ⟨by decide, by decide, by decide⟩
    ⟨by rw [show eventPairs (wEvents 42 42 42) = checksumWorkItems wCluster [] []
        from by decide],
      fun _ => by decide⟩
    (by decide)
    ⟨wOpts, rfl⟩

/-- C9: in every run, the number of recorded results never exceeds the
number of filtered tablet replicas; fewer recorded results than expected
implies `WaitFor` timed out; hence the `CHECK(timed_out)` in the
classification never fires. -/
theorem checksum_results_invariant (c : KsckCluster) (tf ti : List String)
    (o : ScanOutcome) (hwf : ClusterWF c)
    (hvalid : ScanOutcomeValid c tf ti o) :
    ∃ checksums, runReports o.events = some checksums ∧
      (countClusterResults c checksums).num_results ≤
        num_tablet_replicas c tf ti ∧
      ((countClusterResults c checksums).num_results <
          num_tablet_replicas c tf ti → o.wait_ok = false) ∧
      ¬(checksumFinalStatus (!o.wait_ok) (num_tablet_replicas c tf ti)
          (countClusterResults c checksums) = none) := by
  obtain ⟨m, hrun, hcount⟩ := checksum_run_counts c tf ti o hwf hvalid
  have hle : (countClusterResults c m).num_results ≤ num_tablet_replicas c tf ti := by
    rw [hcount]
    exact scanOutcome_length_le c tf ti o hvalid
  have himp : (!o.wait_ok) = false → (countClusterResults c m).num_results =
      num_tablet_replicas c tf ti := by
    intro hnt
    have hw : o.wait_ok = true := by
      cases h : o.wait_ok with
      | false => rw [h] at hnt; simp at hnt
      | true => rfl
    rw [hcount]
    exact hvalid.2 hw
  refine ⟨m, hrun, hle, ?_, ?_⟩
  · intro hlt
    cases h : o.wait_ok with
    | false => rfl
    | true =>
        have := hvalid.2 h
        rw [hcount] at hlt
        omega
  · rw [checksumFinalStatus_eq_spec (!o.wait_ok) _ _ hle himp]
    simp

/-- C9 witness: the clean three-replica run satisfies the invariant. -/
theorem checksum_results_invariant_witness :
    ∃ checksums, runReports (wEvents 42 42 42) = some checksums ∧
      (countClusterResults wCluster checksums).num_results ≤
        num_tablet_replicas wCluster [] [] ∧
      ((countClusterResults wCluster checksums).num_results <
          num_tablet_replicas wCluster [] [] → true = false) ∧
      ¬(checksumFinalStatus (!true) (num_tablet_replicas wCluster [] [])
          (countClusterResults wCluster checksums) = none) :=
  checksum_results_invariant wCluster [] []
    { events := wEvents 42 42 42, wait_ok := true }
    ⟨by decide, by decide, by decide⟩
    ⟨by rw [show eventPairs (wEvents 42 42 42) = checksumWorkItems wCluster [] []
        from by decide],
      fun _ => by decide⟩

theorem mismatchFold_seen (first : Nat) :
    ∀ (results : ReplicaResultMap) (st : ClassifyCounts),
    ((results.foldl (fun a p => checksumReplicaStep a p.2)
        (true, first, st)).2.2).num_mismatches =
      st.num_mismatches +
        ((results.map (fun p => p.2)).filter
          (fun r => r.ok && !(r.checksum = first))).length := by
  intro results
  induction results with
  | nil => intro st; simp
  | cons p results ih =>
      intro st
      rw [List.foldl_cons]
      by_cases hok : p.2.ok
      · by_cases hcs : p.2.checksum = first
        · have hstep : checksumReplicaStep (true, first, st) p.2 =
              (true, first, { st with num_results := st.num_results + 1 }) := by
            simp [checksumReplicaStep, hok, hcs]
          rw [hstep, ih]
          simp [hok, hcs]
        · have hstep : checksumReplicaStep (true, first, st) p.2 =
              (true, first,
                { st with num_mismatches := st.num_mismatches + 1,
                          num_results := st.num_results + 1 }) := by
            simp [checksumReplicaStep, hok, hcs]
          rw [hstep, ih]
          simp only [List.map_cons, List.filter_cons, hok, hcs]
          simp
          omega
      · have hstep : checksumReplicaStep (true, first, st) p.2 =
            (true, first,
              { st with num_errors := st.num_errors + 1,
                        num_results := st.num_results + 1 }) := by
          simp [checksumReplicaStep, hok]
        rw [hstep, ih]
        simp [hok]

theorem specMismatchCount_cons_not_ok {r : ScanResult} (l : List ScanResult)
    (h : r.ok = false) : specMismatchCount (r :: l) = specMismatchCount l := by
  simp [specMismatchCount, List.filter_cons, h]

theorem specMismatchCount_cons_ok {r : ScanResult} (l : List ScanResult)
    (h : r.ok = true) :
    specMismatchCount (r :: l) =
      ((l.filter (fun x => x.ok)).filter
        (fun x => !(x.checksum = r.checksum))).length := by
  simp [specMismatchCount, List.filter_cons, h]

theorem mismatchFold_unseen :
    ∀ (results : ReplicaResultMap) (st : ClassifyCounts),
    ((results.foldl (fun a p => checksumReplicaStep a p.2)
        (false, 0, st)).2.2).num_mismatches =
      st.num_mismatches + specMismatchCount (results.map (fun p => p.2)) := by
  intro results
  induction results with
  | nil => intro st; simp [specMismatchCount]
  | cons p results ih =>
      intro st
      rw [List.foldl_cons]
      by_cases hok : p.2.ok
      · have hstep : checksumReplicaStep (false, 0, st) p.2 =
            (true, p.2.checksum, { st with num_results := st.num_results + 1 }) := by
          simp [checksumReplicaStep, hok]
        rw [hstep, mismatchFold_seen]
        rw [List.map_cons, specMismatchCount_cons_ok _ hok]
        rw [List.filter_filter]
        have hcong : (results.map (fun p => p.2)).filter
            (fun r => r.ok && !(r.checksum = p.2.checksum)) =
            (results.map (fun p => p.2)).filter
              (fun x => !(x.checksum = p.2.checksum) && x.ok) :=
          List.filter_congr (fun a _ => by rw [Bool.and_comm])
        rw [hcong]
      · have hstep : checksumReplicaStep (false, 0, st) p.2 =
            (false, 0,
              { st with num_errors := st.num_errors + 1,
                        num_results := st.num_results + 1 }) := by
          simp [checksumReplicaStep, hok]
        rw [hstep, ih]
        rw [List.map_cons, specMismatchCount_cons_not_ok _ (by simp [hok])]

theorem tabletMismatchCount_eq_spec (results : ReplicaResultMap) :
    tabletMismatchCount results = specMismatchCount (results.map (fun p => p.2)) := by
  rw [tabletMismatchCount, countTabletResults, mismatchFold_unseen]
  simp

/-- C2 (amended): within a tablet, the first successful replica's checksum
is the reference and every subsequent successful replica whose checksum
differs from it counts as one mismatch; consequently, for the checksum
multiset `{A, A, B}` (`A ≠ B`) the loop counts one mismatch when a replica
with checksum `A` is yielded first and two when the `B` replica is first. -/
theorem mismatch_reference_counting (results : ReplicaResultMap) (A B : Nat)
    (h : ¬(A = B)) :
    tabletMismatchCount results = specMismatchCount (results.map (fun p => p.2)) ∧
    tabletMismatchCount [("u1", { ok := true, checksum := A }),
      ("u2", { ok := true, checksum := A }),
      ("u3", { ok := true, checksum := B })] = 1 ∧
    tabletMismatchCount [("u1", { ok := true, checksum := A }),
      ("u2", { ok := true, checksum := B }),
      ("u3", { ok := true, checksum := A })] = 1 ∧
    tabletMismatchCount [("u1", { ok := true, checksum := B }),
      ("u2", { ok := true, checksum := A }),
      ("u3", { ok := true, checksum := A })] = 2 := by
  have hs : ¬(B = A) := fun hc => h hc.symm
  refine ⟨tabletMismatchCount_eq_spec results, ?_, ?_, ?_⟩ <;>
    · rw [tabletMismatchCount_eq_spec]
      simp [specMismatchCount, List.filter_cons, h, hs]

/-- C2 witness: instantiating the amended counting theorem at `A = 0`,
`B = 1` and a concrete result list. -/
theorem mismatch_reference_counting_witness :
    tabletMismatchCount [("u1", { ok := true, checksum := 0 })] =
      specMismatchCount ([("u1", { ok := true, checksum := (0 : Nat) })].map
        (fun p => p.2)) ∧
    tabletMismatchCount [("u1", { ok := true, checksum := 0 }),
      ("u2", { ok := true, checksum := 0 }),
      ("u3", { ok := true, checksum := 1 })] = 1 ∧
    tabletMismatchCount [("u1", { ok := true, checksum := 0 }),
      ("u2", { ok := true, checksum := 1 }),
      ("u3", { ok := true, checksum := 0 })] = 1 ∧
    tabletMismatchCount [("u1", { ok := true, checksum := 1 }),
      ("u2", { ok := true, checksum := 0 }),
      ("u3", { ok := true, checksum := 0 })] = 2 :=
  mismatch_reference_counting [("u1", { ok := true, checksum := 0 })] 0 1
    (by decide)

/-- C2 counterexample: with the checksum multiset `{0, 0, 1}` delivered in
the order `(1, 0, 0)`, the run counts two mismatches, not one, refuting
"exactly one mismatch ... in whatever order"; the terminal status is
`Corruption 2`, not `Corruption 1`. -/
theorem mismatch_multiset_counterexample :
    ChecksumData wCluster [] [] wOpts []
      { events := mismatchEvents, wait_ok := true } =
      some (KStatus.corruption 2) ∧
    ¬(ChecksumData wCluster [] [] wOpts []
      { events := mismatchEvents, wait_ok := true } =
      some (KStatus.corruption 1)) := by
  constructor
  · decide
  · decide

/-- C5 (amended): with `use_snapshot` and the sentinel timestamp, the
resolution takes the `current_timestamp` of the first healthy tablet
server in the queue map's iteration order; it fails `ServiceUnavailable`
exactly when either no server in that order is healthy, or the first
healthy server reports `current_timestamp = 0` (the sentinel value). -/
theorem snapshot_timestamp_resolution (tsOrder : List KsckTabletServer)
    (opts : ChecksumOptions) (h1 : opts.use_snapshot = true)
    (h2 : opts.snapshot_timestamp = 0) :
    resolveSnapshotTimestamp tsOrder opts =
      match tsOrder.find? (fun ts => ts.is_healthy) with
      | none =>
          Except.error (KStatus.serviceUnavailable
            "No tablet servers were available to fetch the current timestamp")
      | some ts =>
          if ts.current_timestamp = 0 then
            Except.error (KStatus.serviceUnavailable
              "No tablet servers were available to fetch the current timestamp")
          else
            Except.ok { opts with snapshot_timestamp := ts.current_timestamp } := by
  rw [resolveSnapshotTimestamp,
    if_pos ⟨h1, show opts.snapshot_timestamp = ChecksumOptions.kCurrentTimestamp from h2⟩]
  cases hfind : tsOrder.find? (fun ts => ts.is_healthy) with
  | none => simp [h2, ChecksumOptions.kCurrentTimestamp]
  | some ts =>
      by_cases hz : ts.current_timestamp = 0
      · simp [hz, ChecksumOptions.kCurrentTimestamp]
      · simp [hz, ChecksumOptions.kCurrentTimestamp]

/-- C5 witness: resolution against a single healthy server with timestamp
12345 follows the characterization (and succeeds with that timestamp). -/
theorem snapshot_timestamp_resolution_witness :
    resolveSnapshotTimestamp [wTs "u1"] snapOpts =
      match [wTs "u1"].find? (fun ts => ts.is_healthy) with
      | none =>
          Except.error (KStatus.serviceUnavailable
            "No tablet servers were available to fetch the current timestamp")
      | some ts =>
          if ts.current_timestamp = 0 then
            Except.error (KStatus.serviceUnavailable
              "No tablet servers were available to fetch the current timestamp")
          else
            Except.ok { snapOpts with snapshot_timestamp := ts.current_timestamp } :=
  snapshot_timestamp_resolution [wTs "u1"] snapOpts rfl rfl

/-- C5 counterexample: a healthy tablet server whose reported current
timestamp is 0 — the resolution still fails `ServiceUnavailable`, refuting
"fails exactly when no tablet server in the map is healthy". -/
theorem snapshot_timestamp_healthy_counterexample :
    zeroTsServer.is_healthy = true ∧
    resolveSnapshotTimestamp [zeroTsServer] snapOpts =
      Except.error (KStatus.serviceUnavailable
        "No tablet servers were available to fetch the current timestamp") := by
  constructor
  · decide
  · rfl

/-- C6: when no `(table, tablet)` pair passes both filters, `ChecksumData`
returns `NotFound` with the filter-echoing message and constructs no scan
work items. -/
theorem checksum_no_replicas_notfound (c : KsckCluster) (tf ti : List String)
    (opts : ChecksumOptions) (tsOrder : List KsckTabletServer) (o : ScanOutcome)
    (hnone : ∀ table ∈ c.tables, ∀ tablet ∈ table.tablets,
      ¬(MatchesAnyPattern tf table.name = true ∧
        MatchesAnyPattern ti tablet.id = true)) :
    ChecksumData c tf ti opts tsOrder o =
      some (KStatus.notFound (noReplicasMsg tf ti)) ∧
    checksumWorkItems c tf ti = [] := by
  have hft : filteredTablets c tf ti = [] := by
    rw [filteredTablets, List.flatMap_eq_nil_iff]
    intro t ht
    have hmem := List.mem_filter.1 ht
    rw [List.map_eq_nil_iff, List.filter_eq_nil_iff]
    intro tb htb hq
    exact hnone t hmem.1 tb htb ⟨hmem.2, hq⟩
  have hnum : num_tablet_replicas c tf ti = 0 := by
    rw [num_tablet_replicas, hft]
    rfl
  constructor
  · rw [ChecksumData, if_pos hnum]
  · rw [checksumWorkItems, hft]
    rfl

/-- C6 witness: a table filter matching no table makes the run fail
`NotFound` with the echoing message and schedule nothing. -/
theorem checksum_no_replicas_notfound_witness :
    ChecksumData wCluster ["nope"] [] wOpts []
      { events := [], wait_ok := true } =
      some (KStatus.notFound (noReplicasMsg ["nope"] [])) ∧
    checksumWorkItems wCluster ["nope"] [] = [] :=
  checksum_no_replicas_notfound wCluster ["nope"] [] wOpts []
    { events := [], wait_ok := true } (by decide)

/-- C7: the fetch phase returns `NotFound` on an empty tablet-server
directory, `OK` when every server's `FetchInfo` succeeded, and
`NetworkError` otherwise, while keeping the directory (same keyed servers)
and the table snapshot intact. -/
theorem fetch_info_classification (c : KsckCluster) (fetchOk : String → Bool) :
    (FetchInfoFromTabletServers c fetchOk).1 =
      (if c.tablet_servers.length = 0 then
        KStatus.notFound "No tablet servers found"
      else if c.tablet_servers.all (fun e => fetchOk e.1) then
        KStatus.ok
      else
        KStatus.networkError "Not all Tablet Servers are reachable") ∧
    (FetchInfoFromTabletServers c fetchOk).2.tablet_servers.map (fun e => e.1) =
      c.tablet_servers.map (fun e => e.1) ∧
    (FetchInfoFromTabletServers c fetchOk).2.tables = c.tables := by
  by_cases hz : c.tablet_servers.length = 0
  · simp [FetchInfoFromTabletServers, hz]
  · by_cases hall : c.tablet_servers.all (fun e => fetchOk e.1)
    · have hzero : (c.tablet_servers.filter (fun e => !fetchOk e.1)).length = 0 := by
        rw [List.length_eq_zero, List.filter_eq_nil_iff]
        intro a ha
        simp [List.all_eq_true.1 hall a ha]
      simp [FetchInfoFromTabletServers, hz, hall, hzero]
    · have hpos : ¬((c.tablet_servers.filter (fun e => !fetchOk e.1)).length = 0) := by
        rw [List.length_eq_zero, List.filter_eq_nil_iff]
        intro hcon
        apply hall
        rw [List.all_eq_true]
        intro a ha
        have h3 := hcon a ha
        simp at h3
        exact h3
      simp [FetchInfoFromTabletServers, hz, hall, hpos]

/-- C8: on a tablet server whose fetch state is FETCHED, `ReplicaState` is
total — the `CHECK` never fires — returning the stored state for a known
tablet id and UNKNOWN for an absent one. -/
theorem replicaState_total_when_fetched (ts : KsckTabletServer)
    (tablet_id : String) (h : ts.state = FetchState.FETCHED) :
    ts.ReplicaState tablet_id = some (ts.stateOfFetched tablet_id) ∧
    (assocFind ts.tablet_status_map tablet_id = none →
      ts.ReplicaState tablet_id = some TabletStatePB.UNKNOWN) ∧
    (∀ pb, assocFind ts.tablet_status_map tablet_id = some pb →
      ts.ReplicaState tablet_id = some pb.state) := by
  refine ⟨?_, ?_, ?_⟩
  · rw [KsckTabletServer.ReplicaState, if_pos h]
    rfl
  · intro hn
    rw [KsckTabletServer.ReplicaState, if_pos h, hn]
  · intro pb hpb
    rw [KsckTabletServer.ReplicaState, if_pos h, hpb]

/-- C8 witness: a fetched sample server answers for both a known and, by
the same theorem, any queried tablet id. -/
theorem replicaState_total_when_fetched_witness :
    (wTs "u1").ReplicaState "x" = some ((wTs "u1").stateOfFetched "x") ∧
    (assocFind (wTs "u1").tablet_status_map "x" = none →
      (wTs "u1").ReplicaState "x" = some TabletStatePB.UNKNOWN) ∧
    (∀ pb, assocFind (wTs "u1").tablet_status_map "x" = some pb →
      (wTs "u1").ReplicaState "x" = some pb.state) :=
  replicaState_total_when_fetched (wTs "u1") "x" rfl

/-- C10: when no table name matches the table filters the metadata phase
returns OK, and a table none of whose tablets matches the tablet-id
filters is reported healthy. -/
theorem empty_filter_selection_healthy (c : KsckCluster) (tf ti : List String)
    (crc : Bool) (table : KsckTable)
    (h1 : ∀ t ∈ c.tables, MatchesAnyPattern tf t.name = false)
    (h2 : ∀ tb ∈ table.tablets, MatchesAnyPattern ti tb.id = false) :
    CheckTablesConsistency c tf ti crc = KStatus.ok ∧
    (VerifyTable c ti crc table).1 = true := by
  constructor
  · rw [CheckTablesConsistency]
    have hfil : c.tables.filter (fun t => MatchesAnyPattern tf t.name) = [] := by
      rw [List.filter_eq_nil_iff]
      intro a ha
      simp [h1 a ha]
    simp [hfil]
  · rw [VerifyTable]
    have hfil : table.tablets.filter (fun t => MatchesAnyPattern ti t.id) = [] := by
      rw [List.filter_eq_nil_iff]
      intro a ha
      simp [h2 a ha]
    simp [hfil]

/-- C10 witness: filters that match nothing on the sample cluster. -/
theorem empty_filter_selection_healthy_witness :
    CheckTablesConsistency wCluster ["nope"] ["nope"] true = KStatus.ok ∧
    (VerifyTable wCluster ["nope"] true wTable).1 = true :=
  empty_filter_selection_healthy wCluster ["nope"] ["nope"] true wTable
    (by decide) (by decide)

theorem replicaHealthCheck_errors (c : KsckCluster) (tablet : KsckTablet)
    (acc : TabletCheck) (r : KsckTabletReplica) :
    (replicaHealthCheck c tablet acc r).errors = acc.errors := by
  rw [replicaHealthCheck]
  cases assocFind c.tablet_servers r.ts_uuid with
  | none => rfl
  | some ts =>
      by_cases hh : ts.is_healthy
      · simp only [hh, if_true]
        cases assocFind ts.tablet_status_map tablet.id with
        | none => rfl
        | some pb =>
            obtain ⟨st, ls, ds⟩ := pb
            cases st <;> rfl
      · simp [hh]

theorem roleCount_errors (acc : TabletCheck) (r : KsckTabletReplica) :
    (roleCount acc r).errors = acc.errors := by
  rw [roleCount]
  by_cases h1 : r.is_leader <;> by_cases h2 : r.is_follower <;> simp [h1, h2]

theorem verifyReplicaStep_errors (c : KsckCluster) (tablet : KsckTablet)
    (acc : TabletCheck) (r : KsckTabletReplica) :
    (verifyReplicaStep c tablet acc r).errors = acc.errors := by
  rw [verifyReplicaStep, roleCount_errors, replicaHealthCheck_errors]

theorem verifyReplicaFold_errors (c : KsckCluster) (tablet : KsckTablet) :
    ∀ (replicas : List KsckTabletReplica) (acc : TabletCheck),
    (replicas.foldl (verifyReplicaStep c tablet) acc).errors = acc.errors := by
  intro replicas
  induction replicas with
  | nil => intro acc; rfl
  | cons r replicas ih =>
      intro acc
      rw [List.foldl_cons, ih, verifyReplicaStep_errors]

theorem reduceTablet_characterization (c : KsckCluster) (tablet : KsckTablet)
    (R : Nat) (crc : Bool) :
    reduceTablet c tablet R crc =
      { tablet.replicas.foldl (verifyReplicaStep c tablet) (verifyInit tablet R crc) with
        errors :=
          (if (tablet.replicas.foldl (verifyReplicaStep c tablet)
                (verifyInit tablet R crc)).leaders_count = 0 then
            ["No leader detected"]
          else []) ++
          (if (tablet.replicas.foldl (verifyReplicaStep c tablet)
                (verifyInit tablet R crc)).alive_count < MajoritySize R then
            [noLiveMajorityError (tabletStr tablet)]
          else if (tablet.replicas.foldl (verifyReplicaStep c tablet)
                (verifyInit tablet R crc)).running_count < MajoritySize R then
            [noRunningMajorityError (tabletStr tablet)]
          else []) } := by
  rw [reduceTablet]
  have herr : (tablet.replicas.foldl (verifyReplicaStep c tablet)
      (verifyInit tablet R crc)).errors = [] :=
    verifyReplicaFold_errors c tablet tablet.replicas (verifyInit tablet R crc)
  generalize hacc : tablet.replicas.foldl (verifyReplicaStep c tablet)
    (verifyInit tablet R crc) = acc
  rw [hacc] at herr
  obtain ⟨w, e, i, lc, fc, ac, rc⟩ := acc
  simp only at herr
  subst herr
  by_cases h1 : lc = 0 <;> by_cases h2 : ac < MajoritySize R <;>
    by_cases h3 : rc < MajoritySize R <;> simp [h1, h2, h3]

theorem noLive_ne_noLeader (s : String) :
    ¬(noLiveMajorityError s = "No leader detected") := by
  intro h
  have hlen := congrArg String.length h
  rw [noLiveMajorityError, String.length_append] at hlen
  have h1 : 18 <
      (" does not have a majority of replicas on live tablet servers").length := by
    decide
  have h2 : ("No leader detected").length = 18 := by decide
  omega

theorem noRunning_ne_noLeader (s : String) :
    ¬(noRunningMajorityError s = "No leader detected") := by
  intro h
  have hlen := congrArg String.length h
  rw [noRunningMajorityError, String.length_append] at hlen
  have h1 : 18 <
      (" does not have a majority of replicas in RUNNING state").length := by
    decide
  have h2 : ("No leader detected").length = 18 := by decide
  omega

theorem noLive_ne_noRunning (s : String) :
    ¬(noLiveMajorityError s = noRunningMajorityError s) := by
  intro h
  have hlen := congrArg String.length h
  rw [noLiveMajorityError, noRunningMajorityError, String.length_append,
    String.length_append] at hlen
  have h1 : ¬((" does not have a majority of replicas on live tablet servers").length =
      (" does not have a majority of replicas in RUNNING state").length) := by
    decide
  omega

/-- C3: the verifier uses `majority = ⌊R/2⌋ + 1` and emits the live-majority
error exactly when `alive < majority`, the RUNNING-majority error exactly
when `alive ≥ majority` and `running < majority`, and never both. -/
theorem majority_error_selection (c : KsckCluster) (tablet : KsckTablet)
    (R : Nat) (crc : Bool) :
    MajoritySize R = R / 2 + 1 ∧
    ((reduceTablet c tablet R crc).errors.count
        (noLiveMajorityError (tabletStr tablet)) =
      if (reduceTablet c tablet R crc).alive_count < MajoritySize R then 1
      else 0) ∧
    ((reduceTablet c tablet R crc).errors.count
        (noRunningMajorityError (tabletStr tablet)) =
      if ¬((reduceTablet c tablet R crc).alive_count < MajoritySize R) ∧
          (reduceTablet c tablet R crc).running_count < MajoritySize R then 1
      else 0) := by
  have hchar := reduceTablet_characterization c tablet R crc
  have hL := noLive_ne_noLeader (tabletStr tablet)
  have hR := noRunning_ne_noLeader (tabletStr tablet)
  have hLR := noLive_ne_noRunning (tabletStr tablet)
  have hRL : ¬(noRunningMajorityError (tabletStr tablet) =
      noLiveMajorityError (tabletStr tablet)) := fun hc => hLR (Eq.symm hc)
  refine ⟨rfl, ?_, ?_⟩ <;>
  · rw [hchar]
    by_cases h1 : (tablet.replicas.foldl (verifyReplicaStep c tablet)
        (verifyInit tablet R crc)).leaders_count = 0 <;>
      by_cases h2 : (tablet.replicas.foldl (verifyReplicaStep c tablet)
          (verifyInit tablet R crc)).alive_count < MajoritySize R <;>
        by_cases h3 : (tablet.replicas.foldl (verifyReplicaStep c tablet)
            (verifyInit tablet R crc)).running_count < MajoritySize R <;>
          simp [h1, h2, h3, List.count_append, List.count_cons, List.count_nil,
            hL, hR, hLR, hRL]

/-- C4: a tablet is reported unhealthy exactly when the reducer accumulated
a warning or an error; on an unhealthy tablet the diagnostic lines are the
warnings, then the errors, then the infos; a clean tablet prints nothing
(its info lines are suppressed). -/
theorem tablet_verdict_and_output (c : KsckCluster) (tablet : KsckTablet)
    (R : Nat) (crc : Bool) :
    ((VerifyTablet c tablet R crc).1 = false ↔
      (¬((reduceTablet c tablet R crc).warnings = []) ∨
       ¬((reduceTablet c tablet R crc).errors = []))) ∧
    ((VerifyTablet c tablet R crc).2 =
      if (reduceTablet c tablet R crc).warnings = [] ∧
          (reduceTablet c tablet R crc).errors = [] then []
      else
        OutLine.warn ("Detected problems with " ++ tabletStr tablet ++ "\n" ++
          "------------------------------------------------------------") ::
        ((reduceTablet c tablet R crc).warnings.map OutLine.warn ++
         (reduceTablet c tablet R crc).errors.map OutLine.err ++
         (reduceTablet c tablet R crc).infos.map OutLine.info) ++
        [OutLine.raw ""]) := by
  rw [VerifyTablet]
  by_cases hw : (reduceTablet c tablet R crc).warnings = [] <;>
    by_cases he : (reduceTablet c tablet R crc).errors = [] <;>
      simp [hw, he]

end Ksck
